import Mathlib

/-!
Verification of the Schema Markup Generator transformation core
(`src/schema_generator.py`) against its specification.

The embedding models:
* JSON-like documents (`Value`),
* flat input records (`Record`, an association list of strings) with the
  Python `dict.get(key, default)` access (`dget`),
* the three shape functions `generate_organization`, `generate_product`
  and `generate_article`, transcribed field by field from the source,
* the dispatch table built in `SchemaGenerator.__init__`: the dict literal
  evaluates `self.<method>` attribute lookups left to right, so a missing
  method raises an AttributeError during construction (`buildTable`),
* the end-to-end operation `build` (module import constructs the generator
  at line 83, then the `/api/generate` handler dispatches on the tag).
-/

set_option autoImplicit false

namespace SchemaGen

/-- A JSON-like document value: a string leaf or a nested mapping. -/
inductive Value where
  | str (s : String)
  | obj (fields : List (String × Value))

/-- A flat input record: field name to string value, unordered, keys unique. -/
def Record : Type := List (String × String)

instance : DecidableEq Record := by
  unfold Record
  infer_instance

/-- First-match lookup in a record, modelling Python dict key lookup. -/
def lookupKey : Record → String → Option String
  | [], _ => none
  | (k, v) :: rest, key => if k = key then some v else lookupKey rest key

/-- Python `data.get(key, default)`. -/
def dget (data : Record) (key dflt : String) : String :=
  (lookupKey data key).getD dflt

/-- First-match lookup among the fields of a mapping value. -/
def lookupField : List (String × Value) → String → Option Value
  | [], _ => none
  | (k, v) :: rest, key => if k = key then some v else lookupField rest key

/-- Field access on a document value; string leaves have no fields. -/
def getField : Value → String → Option Value
  | .str _, _ => none
  | .obj fields, key => lookupField fields key

/-- Follow a path of keys through nested mappings. -/
def getPath : Value → List String → Option Value
  | v, [] => some v
  | v, k :: ks =>
    match getField v k with
    | some w => getPath w ks
    | none => none

/-- The string leaf at a path, when the path ends at a string leaf. -/
def pathStr (v : Value) (p : List String) : Option String :=
  match getPath v p with
  | some (.str s) => some s
  | _ => none

/-- Transcription of `SchemaGenerator.generate_organization` (source lines 23-44). -/
def generate_organization (data : Record) : Value :=
  .obj [
    ("@context", .str "https://schema.org"),
    ("@type", .str "Organization"),
    ("name", .str (dget data "name" "")),
    ("url", .str (dget data "url" "")),
    ("logo", .str (dget data "logo" "")),
    ("description", .str (dget data "description" "")),
    ("address", .obj [
      ("@type", .str "PostalAddress"),
      ("streetAddress", .str (dget data "street" "")),
      ("addressLocality", .str (dget data "city" "")),
      ("addressRegion", .str (dget data "state" "")),
      ("postalCode", .str (dget data "zip" "")),
      ("addressCountry", .str (dget data "country" ""))]),
    ("contactPoint", .obj [
      ("@type", .str "ContactPoint"),
      ("telephone", .str (dget data "phone" "")),
      ("contactType", .str "customer service")])]

/-- Transcription of `SchemaGenerator.generate_product` (source lines 46-63). -/
def generate_product (data : Record) : Value :=
  .obj [
    ("@context", .str "https://schema.org"),
    ("@type", .str "Product"),
    ("name", .str (dget data "name" "")),
    ("description", .str (dget data "description" "")),
    ("image", .str (dget data "image" "")),
    ("brand", .obj [
      ("@type", .str "Brand"),
      ("name", .str (dget data "brand" ""))]),
    ("offers", .obj [
      ("@type", .str "Offer"),
      ("price", .str (dget data "price" "")),
      ("priceCurrency", .str (dget data "currency" "USD")),
      ("availability", .str "https://schema.org/InStock")])]

/-- Transcription of `SchemaGenerator.generate_article` (source lines 65-81). -/
def generate_article (data : Record) : Value :=
  .obj [
    ("@context", .str "https://schema.org"),
    ("@type", .str "Article"),
    ("headline", .str (dget data "title" "")),
    ("description", .str (dget data "description" "")),
    ("author", .obj [
      ("@type", .str "Person"),
      ("name", .str (dget data "author" ""))]),
    ("datePublished", .str (dget data "date" "")),
    ("image", .str (dget data "image" "")),
    ("publisher", .obj [
      ("@type", .str "Organization"),
      ("name", .str (dget data "publisher" ""))])]

/-- The methods actually defined on class `SchemaGenerator`: attribute
lookup `self.<m>` succeeds exactly for these names. -/
def resolveMethod : String → Option (Record → Value)
  | "generate_organization" => some generate_organization
  | "generate_product" => some generate_product
  | "generate_article" => some generate_article
  | _ => none

/-- The entries of the dict literal in `SchemaGenerator.__init__`
(source lines 14-21), in source order: tag paired with the name of the
method the value expression `self.<name>` refers to. -/
def initEntries : List (String × String) :=
  [("Organization", "generate_organization"),
   ("Person", "generate_person"),
   ("Product", "generate_product"),
   ("Article", "generate_article"),
   ("LocalBusiness", "generate_local_business"),
   ("Event", "generate_event")]

/-- Evaluate the dict literal of `__init__` left to right; the first
attribute lookup that fails raises an AttributeError carrying the missing
method name. -/
def buildTable : List (String × String) → Except String (List (String × (Record → Value)))
  | [] => .ok []
  | (tag, m) :: rest =>
    match resolveMethod m with
    | none => .error m
    | some f =>
      match buildTable rest with
      | .error e => .error e
      | .ok t => .ok ((tag, f) :: t)

/-- The module-level `generator = SchemaGenerator()` (source line 83). -/
def mkGenerator : Except String (List (String × (Record → Value))) :=
  buildTable initEntries

/-- How a call of the transformation can fail: a Python AttributeError
raised while constructing the generator, or the unknown-type error path of
`generate_schema` (the spec name for it is UnknownTypeKind). -/
inductive BuildError where
  | attributeError (attr : String)
  | unknownType (tag : String)
deriving DecidableEq, Repr

/-- Lookup of a tag in the constructed dispatch table
(`schema_type in generator.schema_types` plus the indexing). -/
def lookupFn : List (String × (Record → Value)) → String → Option (Record → Value)
  | [], _ => none
  | (k, f) :: rest, key => if k = key then some f else lookupFn rest key

/-- The end-to-end `build(typeTag, record)` operation: module import
constructs `generator`, then `generate_schema` (source lines 195-205)
dispatches the tag over `generator.schema_types`. -/
def build (tag : String) (data : Record) : Except BuildError Value :=
  match mkGenerator with
  | .error a => .error (.attributeError a)
  | .ok table =>
    match lookupFn table tag with
    | some f => .ok (f data)
    | none => .error (.unknownType tag)

/-!
State-threaded evaluation, used to express purity and frame properties:
every read of the input record (`data.get`) is modelled as an operation
that also returns the record it leaves behind, and a call threads the
module-level state (the `generator` object) and the caller's record.
-/

/-- Python `data.get(key, default)` as a record-threading operation: it returns
its result together with the record it leaves behind. -/
def dgetSt (data : Record) (key dflt : String) : String × Record :=
  (dget data key dflt, data)

/-- Evaluation of `generate_organization` with every field read threaded in source order. -/
def generate_organization_run (data : Record) : Value × Record :=
  let (name, data) := dgetSt data "name" ""
  let (url, data) := dgetSt data "url" ""
  let (logo, data) := dgetSt data "logo" ""
  let (descr, data) := dgetSt data "description" ""
  let (street, data) := dgetSt data "street" ""
  let (city, data) := dgetSt data "city" ""
  let (state, data) := dgetSt data "state" ""
  let (zip, data) := dgetSt data "zip" ""
  let (country, data) := dgetSt data "country" ""
  let (phone, data) := dgetSt data "phone" ""
  (.obj [
    ("@context", .str "https://schema.org"),
    ("@type", .str "Organization"),
    ("name", .str name),
    ("url", .str url),
    ("logo", .str logo),
    ("description", .str descr),
    ("address", .obj [
      ("@type", .str "PostalAddress"),
      ("streetAddress", .str street),
      ("addressLocality", .str city),
      ("addressRegion", .str state),
      ("postalCode", .str zip),
      ("addressCountry", .str country)]),
    ("contactPoint", .obj [
      ("@type", .str "ContactPoint"),
      ("telephone", .str phone),
      ("contactType", .str "customer service")])], data)

/-- Evaluation of `generate_product` with every field read threaded in source order. -/
def generate_product_run (data : Record) : Value × Record :=
  let (name, data) := dgetSt data "name" ""
  let (descr, data) := dgetSt data "description" ""
  let (image, data) := dgetSt data "image" ""
  let (brand, data) := dgetSt data "brand" ""
  let (price, data) := dgetSt data "price" ""
  let (currency, data) := dgetSt data "currency" "USD"
  (.obj [
    ("@context", .str "https://schema.org"),
    ("@type", .str "Product"),
    ("name", .str name),
    ("description", .str descr),
    ("image", .str image),
    ("brand", .obj [
      ("@type", .str "Brand"),
      ("name", .str brand)]),
    ("offers", .obj [
      ("@type", .str "Offer"),
      ("price", .str price),
      ("priceCurrency", .str currency),
      ("availability", .str "https://schema.org/InStock")])], data)

/-- Evaluation of `generate_article` with every field read threaded in source order. -/
def generate_article_run (data : Record) : Value × Record :=
  let (title, data) := dgetSt data "title" ""
  let (descr, data) := dgetSt data "description" ""
  let (author, data) := dgetSt data "author" ""
  let (date, data) := dgetSt data "date" ""
  let (image, data) := dgetSt data "image" ""
  let (publisher, data) := dgetSt data "publisher" ""
  (.obj [
    ("@context", .str "https://schema.org"),
    ("@type", .str "Article"),
    ("headline", .str title),
    ("description", .str descr),
    ("author", .obj [
      ("@type", .str "Person"),
      ("name", .str author)]),
    ("datePublished", .str date),
    ("image", .str image),
    ("publisher", .obj [
      ("@type", .str "Organization"),
      ("name", .str publisher)])], data)

/-- Attribute lookup on the class, resolving to the threaded shape functions. -/
def resolveMethodRun : String → Option (Record → Value × Record)
  | "generate_organization" => some generate_organization_run
  | "generate_product" => some generate_product_run
  | "generate_article" => some generate_article_run
  | _ => none

/-- The dict literal of `__init__`, threaded variant. -/
def buildTableRun :
    List (String × String) → Except String (List (String × (Record → Value × Record)))
  | [] => .ok []
  | (tag, m) :: rest =>
    match resolveMethodRun m with
    | none => .error m
    | some f =>
      match buildTableRun rest with
      | .error e => .error e
      | .ok t => .ok ((tag, f) :: t)

/-- The module-level `generator` object, threaded variant. -/
def mkGeneratorRun : Except String (List (String × (Record → Value × Record))) :=
  buildTableRun initEntries

/-- The process-wide state the handler can see: the module-level
`generator` object (or the import-time error that constructing it raised). -/
structure ModuleState where
  generator : Except String (List (String × (Record → Value × Record)))

/-- The state after module import runs `generator = SchemaGenerator()`. -/
def initState : ModuleState :=
  ⟨mkGeneratorRun⟩

/-- Dispatch-table lookup for the threaded variant. -/
def lookupFnRun :
    List (String × (Record → Value × Record)) → String → Option (Record → Value × Record)
  | [], _ => none
  | (k, f) :: rest, key => if k = key then some f else lookupFnRun rest key

/-- One call of the builder, threading the module state and the caller's
record: the result, the module state after the call, and the record after
the call. -/
def buildRun (st : ModuleState) (tag : String) (data : Record) :
    Except BuildError Value × ModuleState × Record :=
  match st.generator with
  | .error a => (.error (.attributeError a), st, data)
  | .ok table =>
    match lookupFnRun table tag with
    | some f =>
      match f data with
      | (v, dataOut) => (.ok v, st, dataOut)
    | none => (.error (.unknownType tag), st, data)

/-! Helper lemmas shared by the claim theorems. -/

theorem mkGenerator_eq : mkGenerator = .error "generate_person" := rfl

theorem mkGeneratorRun_eq : mkGeneratorRun = .error "generate_person" := rfl

theorem build_eq (tag : String) (data : Record) :
    build tag data = .error (.attributeError "generate_person") := rfl

theorem buildRun_eq (tag : String) (data : Record) :
    buildRun initState tag data =
      (.error (.attributeError "generate_person"), initState, data) := rfl

theorem dget_absent (data : Record) (key dflt : String)
    (h : lookupKey data key = none) : dget data key dflt = dflt := by
  simp [dget, h]

theorem dget_present (data : Record) (key dflt v : String)
    (h : lookupKey data key = some v) : dget data key dflt = v := by
  simp [dget, h]

theorem generate_organization_run_eq (data : Record) :
    generate_organization_run data = (generate_organization data, data) := rfl

theorem generate_product_run_eq (data : Record) :
    generate_product_run data = (generate_product data, data) := rfl

theorem generate_article_run_eq (data : Record) :
    generate_article_run data = (generate_article data, data) := rfl

/-- The input-sourced leaves of the Organization shape: source key paired
with the output path it feeds, all defaulting to the empty string. -/
def orgSourced : List (String × List String) :=
  [("name", ["name"]), ("url", ["url"]), ("logo", ["logo"]),
   ("description", ["description"]),
   ("street", ["address", "streetAddress"]),
   ("city", ["address", "addressLocality"]),
   ("state", ["address", "addressRegion"]),
   ("zip", ["address", "postalCode"]),
   ("country", ["address", "addressCountry"]),
   ("phone", ["contactPoint", "telephone"])]

/-- The input-sourced leaves of the Product shape that default to the
empty string (`offers.priceCurrency` is sourced from `currency` but
defaults to "USD", so it is deliberately not in this list). -/
def productSourcedEmpty : List (String × List String) :=
  [("name", ["name"]), ("description", ["description"]), ("image", ["image"]),
   ("brand", ["brand", "name"]), ("price", ["offers", "price"])]

/-- The input-sourced leaves of the Article shape: source key paired with
the output path it feeds, all defaulting to the empty string. -/
def articleSourced : List (String × List String) :=
  [("title", ["headline"]), ("description", ["description"]),
   ("author", ["author", "name"]), ("date", ["datePublished"]),
   ("image", ["image"]), ("publisher", ["publisher", "name"])]

/-!
Claim theorems.
-/

/-- C1: the claim states that for every recognized tag and every input
record `build` terminates and returns a document carrying the
`@context`/`@type` literals. On the code this fails: `generator =
SchemaGenerator()` at module import evaluates `self.generate_person` in
the dict literal of `__init__` and raises AttributeError, so `build`
raises for every tag and record and never returns a document. This
theorem evaluates the code at the failing input (tag "Organization",
empty record) and shows no call ever produces a document. -/
theorem build_organization_crashes :
    build "Organization" [] = .error (.attributeError "generate_person") ∧
    ∀ (tag : String) (data : Record) (v : Value), build tag data ≠ .ok v := by
  refine ⟨rfl, ?_⟩
  intro tag data v h
  simp [build_eq] at h

/-- C2 counterexample: the claim says every leaf whose source key is
absent from the input equals the empty string, but with `currency` absent
the Product document's `offers.priceCurrency` leaf equals "USD", not "". -/
theorem product_priceCurrency_defaults_nonempty :
    lookupKey [] "currency" = none ∧
    pathStr (generate_product []) ["offers", "priceCurrency"] = some "USD" ∧
    ("USD" : String) ≠ "" := by
  refine ⟨rfl, rfl, ?_⟩
  decide

/-- C2 amended: every input-sourced leaf of the three defined shapes
equals the empty string when its source key is absent from the input
record, except Product's `offers.priceCurrency`, which equals "USD" when
its source key `currency` is absent. -/
theorem default_fill_property :
    ∀ data : Record,
      (∀ kp ∈ orgSourced, lookupKey data kp.1 = none →
        pathStr (generate_organization data) kp.2 = some "") ∧
      (∀ kp ∈ productSourcedEmpty, lookupKey data kp.1 = none →
        pathStr (generate_product data) kp.2 = some "") ∧
      (lookupKey data "currency" = none →
        pathStr (generate_product data) ["offers", "priceCurrency"] = some "USD") ∧
      (∀ kp ∈ articleSourced, lookupKey data kp.1 = none →
        pathStr (generate_article data) kp.2 = some "") := by
  intro data
  refine ⟨?_, ?_, ?_, ?_⟩
  · intro kp hkp
    fin_cases hkp <;> intro h <;>
      simp [pathStr, getPath, getField, generate_organization, lookupField, dget, h]
  · intro kp hkp
    fin_cases hkp <;> intro h <;>
      simp [pathStr, getPath, getField, generate_product, lookupField, dget, h]
  · intro h
    simp [pathStr, getPath, getField, generate_product, lookupField, dget, h]
  · intro kp hkp
    fin_cases hkp <;> intro h <;>
      simp [pathStr, getPath, getField, generate_article, lookupField, dget, h]

/-- C2 witness: the amended default-fill theorem applied at the empty
record, for one Organization leaf, one Product leaf, the priceCurrency
leaf and one Article leaf. -/
theorem default_fill_property_witness :
    pathStr (generate_organization []) ["name"] = some "" ∧
    pathStr (generate_product []) ["offers", "price"] = some "" ∧
    pathStr (generate_product []) ["offers", "priceCurrency"] = some "USD" ∧
    pathStr (generate_article []) ["headline"] = some "" :=
  ⟨(default_fill_property []).1 ("name", ["name"]) (by decide) rfl,
   (default_fill_property []).2.1 ("price", ["offers", "price"]) (by decide) rfl,
   (default_fill_property []).2.2.1 rfl,
   (default_fill_property []).2.2.2 ("title", ["headline"]) (by decide) rfl⟩

/-- C3: the claim states that `build` fails with UnknownTypeKind exactly
on unrecognized tags and has no other failure mode. On the code every
call fails with the import-time AttributeError instead: evaluated at the
spec's own example input, `build("NotARealType", {})` yields the
AttributeError, never an unknown-type error. -/
theorem build_unknown_tag_raises_attribute_error :
    build "NotARealType" [] = .error (.attributeError "generate_person") ∧
    ∀ s : String, build "NotARealType" [] ≠ .error (.unknownType s) := by
  refine ⟨rfl, ?_⟩
  intro s h
  simp [build_eq] at h

/-- C4: every tag of the closed set {Organization, Person, Product,
Article, LocalBusiness, Event} appears as a key of the dispatch-table
literal (it is recognized as known), and `build` never fails with the
unknown-type error on it, for any record. -/
theorem recognized_tags_never_unknown :
    ∀ (tag : String) (data : Record) (s : String),
      tag ∈ ["Organization", "Person", "Product", "Article", "LocalBusiness", "Event"] →
      tag ∈ initEntries.map Prod.fst ∧ build tag data ≠ .error (.unknownType s) := by
  intro tag data s htag
  refine ⟨?_, ?_⟩
  · simpa [initEntries] using htag
  · intro h
    simp [build_eq] at h

/-- C4 witness: the theorem applied at tag "Person" with the empty record. -/
theorem recognized_tags_never_unknown_witness :
    "Person" ∈ initEntries.map Prod.fst ∧
    build "Person" [] ≠ .error (.unknownType "Person") :=
  recognized_tags_never_unknown "Person" [] "Person" (by decide)

/-- C5: the dict literal of `__init__` references the method names
generate_person, generate_local_business and generate_event; none of them
resolves to a method of the class; therefore constructing the generator
fails with an AttributeError on generate_person (the first missing name in
evaluation order), every call of `build` for every tag fails with that
attribute-lookup error — a failure distinct from the unknown-type error —
and no document is ever produced for Person, LocalBusiness or Event. -/
theorem init_references_undefined_methods :
    initEntries.map Prod.snd =
      ["generate_organization", "generate_person", "generate_product",
       "generate_article", "generate_local_business", "generate_event"] ∧
    resolveMethod "generate_person" = none ∧
    resolveMethod "generate_local_business" = none ∧
    resolveMethod "generate_event" = none ∧
    mkGenerator = .error "generate_person" ∧
    (∀ (tag : String) (data : Record),
      build tag data = .error (.attributeError "generate_person")) ∧
    (∀ (tag : String) (data : Record) (s : String),
      build tag data ≠ .error (.unknownType s)) ∧
    (∀ (data : Record) (v : Value), build "Person" data ≠ .ok v) ∧
    (∀ (data : Record) (v : Value), build "LocalBusiness" data ≠ .ok v) ∧
    (∀ (data : Record) (v : Value), build "Event" data ≠ .ok v) := by
  refine ⟨rfl, rfl, rfl, rfl, rfl, fun tag data => rfl, ?_, ?_, ?_, ?_⟩
  · intro tag data s h
    simp [build_eq] at h
  · intro data v h
    simp [build_eq] at h
  · intro data v h
    simp [build_eq] at h
  · intro data v h
    simp [build_eq] at h

/-- C6 counterexample: the claim says `offers.priceCurrency` equals "USD"
exactly when `currency` is absent from the input; but on the input record
with `currency` present and equal to "USD" the leaf equals "USD" while the
key is present, refuting the claimed equivalence. -/
theorem priceCurrency_iff_fails_on_explicit_usd :
    ¬ ((pathStr (generate_product [("currency", "USD")]) ["offers", "priceCurrency"] =
          some "USD") ↔
        lookupKey [("currency", "USD")] "currency" = none) := by
  decide

/-- C6 amended: for every input record the Product document's
`offers.availability` equals "https://schema.org/InStock" and the
Organization document's `contactPoint.contactType` equals
"customer service"; and `offers.priceCurrency` equals "USD" when the key
`currency` is absent and equals the input's `currency` value when it is
present. -/
theorem fixed_literals_and_currency_default :
    ∀ data : Record,
      pathStr (generate_product data) ["offers", "availability"] =
        some "https://schema.org/InStock" ∧
      pathStr (generate_organization data) ["contactPoint", "contactType"] =
        some "customer service" ∧
      (lookupKey data "currency" = none →
        pathStr (generate_product data) ["offers", "priceCurrency"] = some "USD") ∧
      (∀ v : String, lookupKey data "currency" = some v →
        pathStr (generate_product data) ["offers", "priceCurrency"] = some v) := by
  intro data
  refine ⟨rfl, rfl, ?_, ?_⟩
  · intro h
    simp [pathStr, getPath, getField, generate_product, lookupField, dget, h]
  · intro v h
    simp [pathStr, getPath, getField, generate_product, lookupField, dget, h]

/-- C6 witness: the amended theorem applied at the empty record (currency
absent) and at a record with currency "EUR" (currency present). -/
theorem fixed_literals_and_currency_default_witness :
    pathStr (generate_product []) ["offers", "availability"] =
      some "https://schema.org/InStock" ∧
    pathStr (generate_product []) ["offers", "priceCurrency"] = some "USD" ∧
    pathStr (generate_product [("currency", "EUR")]) ["offers", "priceCurrency"] =
      some "EUR" :=
  ⟨(fixed_literals_and_currency_default []).1,
   (fixed_literals_and_currency_default []).2.2.1 rfl,
   (fixed_literals_and_currency_default [("currency", "EUR")]).2.2.2 "EUR" rfl⟩

/-- C7: the claim states the title→headline and date→datePublished
remapping and, in particular, that `build(Article, {title: "T",
date: "2024-01-15"})` yields that document. On the code the call raises
the import-time AttributeError and yields no document; the article shape
function itself, applied directly, does perform exactly the claimed
remapping (shown here both at the claimed input and for every record). -/
theorem article_remapping_but_build_raises :
    build "Article" [("title", "T"), ("date", "2024-01-15")] =
      .error (.attributeError "generate_person") ∧
    pathStr (generate_article [("title", "T"), ("date", "2024-01-15")]) ["headline"] =
      some "T" ∧
    pathStr (generate_article [("title", "T"), ("date", "2024-01-15")]) ["datePublished"] =
      some "2024-01-15" ∧
    (∀ data : Record,
      pathStr (generate_article data) ["headline"] = some (dget data "title" "") ∧
      pathStr (generate_article data) ["datePublished"] = some (dget data "date" "") ∧
      getField (generate_article data) "title" = none ∧
      getField (generate_article data) "date" = none) :=
  ⟨rfl, rfl, rfl, fun _ => ⟨rfl, rfl, rfl, rfl⟩⟩

/-- C8: the claim states that `build("Organization", {name: "Acme",
city: "Springfield"})` returns a document with the four given leaves. On
the code the call raises the import-time AttributeError and returns no
document; the organization shape function itself, applied directly to
that record, produces exactly the four claimed leaf values. -/
theorem organization_example_but_build_raises :
    build "Organization" [("name", "Acme"), ("city", "Springfield")] =
      .error (.attributeError "generate_person") ∧
    pathStr (generate_organization [("name", "Acme"), ("city", "Springfield")])
      ["name"] = some "Acme" ∧
    pathStr (generate_organization [("name", "Acme"), ("city", "Springfield")])
      ["address", "addressLocality"] = some "Springfield" ∧
    pathStr (generate_organization [("name", "Acme"), ("city", "Springfield")])
      ["address", "streetAddress"] = some "" ∧
    pathStr (generate_organization [("name", "Acme"), ("city", "Springfield")])
      ["contactPoint", "telephone"] = some "" :=
  ⟨rfl, rfl, rfl, rfl, rfl⟩

/-- C9: determinism. A second call of the builder with the same tag, run
on the module state and record left behind by a first call, returns the
identical (result, state, record) triple; and re-running each threaded
shape function on the record it left behind returns the identical pair.
The output therefore depends only on the (tag, record) pair. -/
theorem build_deterministic :
    (∀ (tag : String) (data : Record),
      buildRun (buildRun initState tag data).2.1 tag (buildRun initState tag data).2.2 =
        buildRun initState tag data) ∧
    (∀ data : Record,
      generate_organization_run (generate_organization_run data).2 =
        generate_organization_run data) ∧
    (∀ data : Record,
      generate_product_run (generate_product_run data).2 = generate_product_run data) ∧
    (∀ data : Record,
      generate_article_run (generate_article_run data).2 = generate_article_run data) :=
  ⟨fun _ _ => rfl, fun _ => rfl, fun _ => rfl, fun _ => rfl⟩

/-- C10: no side effects. Each threaded shape function returns the input
record unchanged; a builder call leaves the module state and the caller's
record unchanged; and the threaded call returns the same result as the
pure `build` function. -/
theorem build_no_side_effects :
    (∀ data : Record, (generate_organization_run data).2 = data) ∧
    (∀ data : Record, (generate_product_run data).2 = data) ∧
    (∀ data : Record, (generate_article_run data).2 = data) ∧
    (∀ (tag : String) (data : Record),
      (buildRun initState tag data).2.1 = initState ∧
      (buildRun initState tag data).2.2 = data) ∧
    (∀ (tag : String) (data : Record),
      (buildRun initState tag data).1 = build tag data) :=
  ⟨fun _ => rfl, fun _ => rfl, fun _ => rfl, fun _ _ => ⟨rfl, rfl⟩, fun _ _ => rfl⟩

end SchemaGen
